import Mathlib

/-!
Shallow embedding of the attendance / event-management logic of the
Valid8 backend (FastAPI + SQLAlchemy), for checking the natural-language
specification against the code.

Conventions of the embedding:
* Database tables become lists of records inside a `Db` structure; a
  SQLAlchemy `query(...).filter(...).first()` becomes `List.find?`, a
  `.all()` becomes `List.filter`, and an in-place mutation of the first
  matching ORM row becomes `update_first`.
* Timestamps are modelled as integer seconds (`Nat` for the non-null
  attendance clock values, `Int` for event datetimes); `datetime.utcnow()`
  becomes an explicit `now : Nat` argument.
* A FastAPI handler becomes a pure function returning
  `Except HTTPException result × Db`: on an error path the returned `Db`
  is the input one (the handlers call `db.rollback()` on every failure),
  on success it is the committed store.
* Python `int(x / 60)` on a nonnegative number of seconds is truncation
  toward zero, embedded as `Int.tdiv`.
-/

namespace Valid8

/-- Enumeration from `app/models/attendance.py`, `class AttendanceStatus`. -/
inductive AttendanceStatus
  | present
  | absent
  | excused
deriving DecidableEq, Repr

/-- Enumeration from `app/models/event.py`, `class EventStatus`. -/
inductive EventStatus
  | upcoming
  | ongoing
  | completed
  | cancelled
deriving DecidableEq, Repr

/-- Row of the `attendances` table (`app/models/attendance.py`).
`time_in` is a non-nullable column (`nullable=False`, default `utcnow`),
so it is a plain `Nat`; `time_out` is nullable. `student_id` is the
foreign key to `student_profiles.id`. -/
structure Attendance where
  id : Nat
  student_id : Nat
  event_id : Nat
  time_in : Nat
  time_out : Option Nat
  method : String
  status : AttendanceStatus
  verified_by : Option Nat
  notes : Option String
deriving DecidableEq, Repr

/-- Row of `student_profiles`: the integer primary key plus the string
student number (`StudentProfile.student_id` in the source). -/
structure StudentProfile where
  id : Nat
  student_id : String
deriving DecidableEq, Repr

/-- Row of `events` (`app/models/event.py`), with the three many-to-many
membership sets flattened to lists of ids (department ids, program ids,
SSG-profile user ids). -/
structure Event where
  id : Nat
  name : String
  location : String
  start_datetime : Int
  end_datetime : Int
  status : EventStatus
  departments : List Nat
  programs : List Nat
  ssg_members : List Nat
deriving DecidableEq, Repr

/-- A user together with its resolved role names
(`current_user.roles[i].role.name` in the source). -/
structure User where
  id : Nat
  email : String
  roles : List String
deriving DecidableEq, Repr

/-- The relational store. `departments`, `programs` and `ssg_profiles`
only matter through their ids (for `ssg_profiles`, the `user_id` used by
the event router's lookups). `next_event_id` / `next_attendance_id`
model the autoincrement primary-key counters. -/
structure Db where
  users : List User
  students : List StudentProfile
  departments : List Nat
  programs : List Nat
  ssg_profiles : List Nat
  events : List Event
  attendances : List Attendance
  next_event_id : Nat
  next_attendance_id : Nat
deriving DecidableEq, Repr

/-- Model of `fastapi.HTTPException`: status code plus detail message. -/
structure HTTPException where
  code : Nat
  detail : String
deriving DecidableEq, Repr

/-- Mutate the first element satisfying `p` (the ORM pattern of loading
`.first()` and assigning to its attributes). -/
def update_first (p : α → Bool) (f : α → α) : List α → List α
  | [] => []
  | x :: xs => if p x then f x :: xs else x :: update_first p f xs

/-- The role check pattern `any(role.role.name in allowed for role in
current_user.roles)`. -/
def has_any_role (u : User) (allowed : List String) : Bool :=
  u.roles.any (fun r => allowed.contains r)

/-- Model of `db.query(T).filter(T.id.in_(ids)).all()` over a store of ids: the
stored ids that occur in the requested list. -/
def resolve_ids (store : List Nat) (ids : List Nat) : List Nat :=
  store.filter (fun x => ids.contains x)

/-! ### Authentication (`app/core/security.py`) -/

/-- Model of a bearer token as seen through `jose.jwt.decode`: whether
the signature verifies, whether the `exp` claim has passed, and the
`sub` claim (if present in the payload). -/
structure Token where
  signature_valid : Bool
  expired : Bool
  sub : Option String
deriving DecidableEq, Repr

/-- Shallow model of `jwt.decode(token, SECRET_KEY, ...)`: it returns
the payload (here, just the optional `sub` claim) when the signature is
valid and the token unexpired, and raises `JWTError` (here `none`)
otherwise. -/
def jwt_decode (t : Token) : Option (Option String) :=
  if t.signature_valid && !t.expired then some t.sub else none

/-- The 401 raised everywhere in `get_current_user`. -/
def credentials_exception : HTTPException :=
  ⟨401, "Could not validate credentials"⟩

/-- Dependency `get_current_user` (`app/core/security.py` lines 50-76): decode the
token, extract `sub`, reload the user by email; any failure is the 401
`credentials_exception`. -/
def get_current_user (db : Db) (token : Token) : Except HTTPException User :=
  match jwt_decode token with
  | none => .error credentials_exception
  | some none => .error credentials_exception
  | some (some email) =>
    match db.users.find? (fun u => u.email == email) with
    | none => .error credentials_exception
    | some user => .ok user

/-- Dependency `get_current_admin` (lines 114-124): a valid current user without
the `admin` role is rejected with 403. -/
def get_current_admin (db : Db) (token : Token) : Except HTTPException User :=
  match get_current_user db token with
  | .error e => .error e
  | .ok current_user =>
    if current_user.roles.contains "admin" then .ok current_user
    else .error ⟨403, "Admin privileges required"⟩

/-- Dependency `get_user_with_required_roles` (lines 151-176): a valid current user
must hold at least one of the required roles, otherwise 403. -/
def get_user_with_required_roles (db : Db) (token : Token)
    (required_roles : List String) : Except HTTPException User :=
  match get_current_user db token with
  | .error e => .error e
  | .ok current_user =>
    if required_roles.any (fun r => current_user.roles.contains r) then .ok current_user
    else .error ⟨403, "Insufficient permissions. Required roles: " ++
                   String.intercalate ", " required_roles⟩

/-! ### Event creation and update (`app/routers/events.py`) -/

/-- Request schema `EventCreate` (`app/schemas/event.py`). -/
structure EventCreate where
  name : String
  location : String
  start_datetime : Int
  end_datetime : Int
  status : EventStatus
  department_ids : List Nat
  program_ids : List Nat
  ssg_member_ids : List Nat
deriving DecidableEq, Repr

/-- Request schema `EventUpdate`: every field optional. -/
structure EventUpdate where
  name : Option String
  location : Option String
  start_datetime : Option Int
  end_datetime : Option Int
  status : Option EventStatus
  department_ids : Option (List Nat)
  program_ids : Option (List Nat)
  ssg_member_ids : Option (List Nat)
deriving DecidableEq, Repr

/-- Body of the `try:` block of `create_event` (`app/routers/events.py`
lines 38-96), up to `db.commit()`.  Mirrors the source ordering:
permission check, datetime check, department lookup, program lookup and
- only nested inside the non-empty-`program_ids` branch - the SSG-member
lookup.  The interpolated `missing` id set of the 404 messages is
elided. -/
def create_event_core (db : Db) (current_user : User) (event : EventCreate) :
    Except HTTPException Event :=
  if ¬ has_any_role current_user ["ssg", "admin", "event-organizer"] = true then
    .error ⟨403, "Not authorized to create events"⟩
  else if event.end_datetime ≤ event.start_datetime then
    .error ⟨400, "End datetime must be after start datetime"⟩
  else
    let departments := resolve_ids db.departments event.department_ids
    if event.department_ids ≠ [] ∧ departments.length ≠ event.department_ids.length then
      .error ⟨404, "Departments not found"⟩
    else
      let programs := resolve_ids db.programs event.program_ids
      if event.program_ids ≠ [] ∧ programs.length ≠ event.program_ids.length then
        .error ⟨404, "Programs not found"⟩
      else
        let ssg_profiles := resolve_ids db.ssg_profiles event.ssg_member_ids
        if event.program_ids ≠ [] ∧ event.ssg_member_ids ≠ [] ∧
            ssg_profiles.length ≠ event.ssg_member_ids.length then
          .error ⟨404, "SSG members not found"⟩
        else
          .ok ⟨db.next_event_id, event.name, event.location,
               event.start_datetime, event.end_datetime, event.status,
               departments, programs,
               if event.program_ids ≠ [] ∧ event.ssg_member_ids ≠ [] then ssg_profiles
               else []⟩

/-- Handler `create_event` with its exception wrapper: the handler has no
`except HTTPException` clause, so every `HTTPException` raised inside
the `try:` is caught by `except Exception`, rolled back, and re-raised
as the 500 `Internal server error`; on success the event row and its
memberships are committed. -/
def create_event (db : Db) (current_user : User) (event : EventCreate) :
    Except HTTPException Event × Db :=
  match create_event_core db current_user event with
  | .ok ev =>
    let db' :=
      { db with
        events := db.events ++ [ev],
        next_event_id := db.next_event_id + 1 }
    (.ok ev, db')
  | .error _ => (.error ⟨500, "Internal server error"⟩, db)

/-- SSG-member replacement step of `update_event` (unlike
`create_event`, not nested under the program branch). -/
def update_event_ssg (db : Db) (e1 : Event) (event_update : EventUpdate) :
    Except HTTPException Event :=
  match event_update.ssg_member_ids with
  | some ids =>
    let ssg_profiles := resolve_ids db.ssg_profiles ids
    if ssg_profiles.length ≠ ids.length then .error ⟨404, "SSG members not found"⟩
    else .ok { e1 with ssg_members := ssg_profiles }
  | none => .ok e1

/-- Program-id replacement step of `update_event`. -/
def update_event_programs (db : Db) (e1 : Event) (event_update : EventUpdate) :
    Except HTTPException Event :=
  match event_update.program_ids with
  | some ids =>
    let programs := resolve_ids db.programs ids
    if programs.length ≠ ids.length then .error ⟨404, "Programs not found"⟩
    else update_event_ssg db { e1 with programs := programs } event_update
  | none => update_event_ssg db e1 event_update

/-- Body of `update_event` (`app/routers/events.py` lines 175-258):
permission check, 404 on a missing event, combined-datetime check before
any field is written, then field and membership replacement. -/
def update_event_core (db : Db) (current_user : User) (event_id : Nat)
    (event_update : EventUpdate) : Except HTTPException Event :=
  if ¬ has_any_role current_user ["ssg", "admin", "event-organizer"] = true then
    .error ⟨403, "Not authorized to update events"⟩
  else
    match db.events.find? (fun e => e.id == event_id) with
    | none => .error ⟨404, "Event not found"⟩
    | some db_event =>
      let new_start := event_update.start_datetime.getD db_event.start_datetime
      let new_end := event_update.end_datetime.getD db_event.end_datetime
      if new_end ≤ new_start then
        .error ⟨400, "End datetime must be after start datetime"⟩
      else
        let e1 : Event :=
          { db_event with
            name := event_update.name.getD db_event.name,
            location := event_update.location.getD db_event.location,
            start_datetime := new_start,
            end_datetime := new_end,
            status := event_update.status.getD db_event.status }
        match event_update.department_ids with
        | some ids =>
          let departments := resolve_ids db.departments ids
          if departments.length ≠ ids.length then
            .error ⟨404, "Departments not found"⟩
          else update_event_programs db { e1 with departments := departments } event_update
        | none => update_event_programs db e1 event_update

/-- Handler `update_event` with its exception wrapper: here the first handler is
`except HTTPException: db.rollback(); raise`, so inner status codes are
preserved and every failure leaves the store unchanged. -/
def update_event (db : Db) (current_user : User) (event_id : Nat)
    (event_update : EventUpdate) : Except HTTPException Event × Db :=
  match update_event_core db current_user event_id event_update with
  | .ok ev =>
    let events' := update_first (fun e => e.id == event_id) (fun _ => ev) db.events
    (.ok ev, { db with events := events' })
  | .error e => (.error e, db)

/-! ### Attendance operations (`app/routers/attendance.py`) -/

/-- Record creation shared by the two exits of
`record_face_scan_attendance`: a fresh `face_scan`/`present` row with
`time_in = now` is inserted and committed. -/
def face_scan_insert (db : Db) (current_user : User) (now : Nat)
    (event_id : Nat) (student : StudentProfile) :
    Except HTTPException (Nat × String × Nat) × Db :=
  let attendance : Attendance :=
    ⟨db.next_attendance_id, student.id, event_id, now, none, "face_scan",
     .present, some current_user.id, none⟩
  let db' :=
    { db with
      attendances := db.attendances ++ [attendance],
      next_attendance_id := db.next_attendance_id + 1 }
  (.ok (attendance.id, student.student_id, attendance.time_in), db')

/-- Handler `record_face_scan_attendance` (lines 516-567): SSG-only; 404 on an
unknown student number; if the pair already has a record and less than
300 seconds elapsed since its `time_in`, reject with the
minutes-elapsed message; otherwise insert a fresh row. -/
def record_face_scan_attendance (db : Db) (current_user : User) (now : Nat)
    (event_id : Nat) (student_id : String) :
    Except HTTPException (Nat × String × Nat) × Db :=
  if ¬ current_user.roles.contains "ssg" = true then
    (.error ⟨403, "Requires SSG role"⟩, db)
  else
    match db.students.find? (fun s => s.student_id == student_id) with
    | none => (.error ⟨404, "Student " ++ student_id ++ " not found"⟩, db)
    | some student =>
      match db.attendances.find?
          (fun a => a.student_id == student.id && a.event_id == event_id) with
      | some existing =>
        let time_diff : Int := (now : Int) - (existing.time_in : Int)
        if time_diff < 300 then
          (.error ⟨400, "Duplicate scan detected. Last scan was " ++
                      toString (Int.tdiv time_diff 60) ++ " minutes ago."⟩, db)
        else face_scan_insert db current_user now event_id student
      | none => face_scan_insert db current_user now event_id student

/-- One iteration of the loop in `record_bulk_attendance` (lines
629-657): unknown student number → `not_found`, existing (student,
event) record → `exists`, otherwise insert a `present`/`manual` row and
report `recorded`.  The session is created with `autoflush=False`
(`app/database.py`) and the loop never flushes, so both in-loop queries
read only the store as it was when the batch started (`db`); rows added
by earlier items of the same batch sit unflushed in the session and are
invisible to later existence checks - they accumulate in `pending`
until the final `db.commit()`.  In particular a batch repeating the
same (student, event) pair inserts twice, both items reported
`recorded`.  A pending row's primary key is the position it will get at
commit time. -/
def bulk_step (current_user : User) (now : Nat) (db : Db)
    (pending : List Attendance) (record : Nat × String × Option String) :
    List Attendance × (String × String) :=
  match db.students.find? (fun s => s.student_id == record.2.1) with
  | none => (pending, (record.2.1, "not_found"))
  | some student =>
    match db.attendances.find?
        (fun a => a.student_id == student.id && a.event_id == record.1) with
    | some _ => (pending, (record.2.1, "exists"))
    | none =>
      let attendance : Attendance :=
        ⟨db.next_attendance_id + pending.length, student.id, record.1, now, none,
         "manual", .present, some current_user.id, record.2.2⟩
      (pending ++ [attendance], (record.2.1, "recorded"))

/-- The loop of `record_bulk_attendance`: every item is classified
against the unchanged batch-start store `db`, while the unflushed
inserts accumulate in the pending list and the per-item results are
collected in order. -/
def bulk_fold (current_user : User) (now : Nat) (db : Db) :
    List Attendance → List (Nat × String × Option String) →
      List Attendance × List (String × String)
  | pending, [] => (pending, [])
  | pending, r :: rs =>
    let s := bulk_step current_user now db pending r
    let rest := bulk_fold current_user now db s.1 rs
    (rest.1, s.2 :: rest.2)

/-- Handler `record_bulk_attendance` (lines 618-660): SSG-only; processes every
item and returns `processed` (the result count) with the per-item
outcome list, never failing the batch for a bad item; the single
`db.commit()` then flushes all pending inserts into the store. -/
def record_bulk_attendance (db : Db) (current_user : User) (now : Nat)
    (records : List (Nat × String × Option String)) :
    Except HTTPException (Nat × List (String × String)) × Db :=
  if ¬ current_user.roles.contains "ssg" = true then
    (.error ⟨403, "Requires SSG role"⟩, db)
  else
    let out := bulk_fold current_user now db [] records
    let db' :=
      { db with
        attendances := db.attendances ++ out.1,
        next_attendance_id := db.next_attendance_id + out.1.length }
    (.ok (out.2.length, out.2), db')

/-- One iteration of the loop in `mark_excused_attendance` (lines
679-697): upsert the (student, event) record to `excused` with
`notes = reason`; a new row gets `time_in = now` from the column
default. -/
def mark_excused_step (current_user : User) (now : Nat) (event_id : Nat)
    (reason : String) (db : Db) (student : StudentProfile) : Db :=
  let pred := fun (a : Attendance) => a.student_id == student.id && a.event_id == event_id
  match db.attendances.find? pred with
  | some _ =>
    let attendances' :=
      update_first pred (fun a => { a with status := .excused, notes := some reason })
        db.attendances
    { db with attendances := attendances' }
  | none =>
    let attendance : Attendance :=
      ⟨db.next_attendance_id, student.id, event_id, now, none, "manual",
       .excused, some current_user.id, some reason⟩
    { db with
      attendances := db.attendances ++ [attendance],
      next_attendance_id := db.next_attendance_id + 1 }

/-- The loop of `mark_excused_attendance` over the resolved students. -/
def mark_excused_fold (current_user : User) (now : Nat) (event_id : Nat)
    (reason : String) : Db → List StudentProfile → Db
  | db, [] => db
  | db, s :: ss =>
    mark_excused_fold current_user now event_id reason
      (mark_excused_step current_user now event_id reason db s) ss

/-- Handler `mark_excused_attendance` (lines 663-700): SSG/admin only; resolves
the supplied student numbers against `student_profiles` (ids that do not
resolve are simply not in the query result), upserts each resolved
student, and reports `len(students)` - the resolved count. -/
def mark_excused_attendance (db : Db) (current_user : User) (now : Nat)
    (event_id : Nat) (student_ids : List String) (reason : String) :
    Except HTTPException String × Db :=
  if ¬ has_any_role current_user ["ssg", "admin"] = true then
    (.error ⟨403, "Requires SSG/Admin role"⟩, db)
  else
    let students := db.students.filter (fun s => student_ids.contains s.student_id)
    (.ok ("Marked " ++ toString students.length ++ " students as excused"),
     mark_excused_fold current_user now event_id reason db students)

/-- Handler `record_time_out` (lines 730-765): SSG/admin only; 404 on a missing
row; 400 `Time-out already recorded` when `time_out` is already set
(leaving the row untouched); otherwise set `time_out = now` and return
the duration `int((time_out - time_in).total_seconds() / 60)`. -/
def record_time_out (db : Db) (current_user : User) (now : Nat)
    (attendance_id : Nat) : Except HTTPException (Nat × Nat × Nat × Int) × Db :=
  if ¬ has_any_role current_user ["ssg", "admin"] = true then
    (.error ⟨403, "Requires SSG or Admin role"⟩, db)
  else
    match db.attendances.find? (fun a => a.id == attendance_id) with
    | none => (.error ⟨404, "Attendance record not found"⟩, db)
    | some attendance =>
      match attendance.time_out with
      | some _ => (.error ⟨400, "Time-out already recorded"⟩, db)
      | none =>
        let duration_minutes := Int.tdiv ((now : Int) - (attendance.time_in : Int)) 60
        let attendances' :=
          update_first (fun a => a.id == attendance_id)
            (fun a => { a with time_out := some now }) db.attendances
        (.ok (attendance_id, attendance.time_in, now, duration_minutes),
         { db with attendances := attendances' })

/-- Handler `record_face_scan_timeout` (lines 767-817): SSG-only; 404 on an
unknown student; the lookup itself filters on `time_out IS NULL`, so a
pair without an active row yields 404 `No active attendance found`; the
found row gets `time_out = now` and the duration is returned. -/
def record_face_scan_timeout (db : Db) (current_user : User) (now : Nat)
    (event_id : Nat) (student_id : String) :
    Except HTTPException (Nat × Nat × Nat × Int) × Db :=
  if ¬ current_user.roles.contains "ssg" = true then
    (.error ⟨403, "Requires SSG role"⟩, db)
  else
    match db.students.find? (fun s => s.student_id == student_id) with
    | none => (.error ⟨404, "Student " ++ student_id ++ " not found"⟩, db)
    | some student =>
      let pred := fun (a : Attendance) =>
        a.student_id == student.id && a.event_id == event_id && a.time_out.isNone
      match db.attendances.find? pred with
      | none =>
        (.error ⟨404, "No active attendance found for student " ++ student_id⟩, db)
      | some attendance =>
        match attendance.time_out with
        | some _ => (.error ⟨400, "Timeout already recorded for this attendance"⟩, db)
        | none =>
          let duration_minutes := Int.tdiv ((now : Int) - (attendance.time_in : Int)) 60
          let attendances' :=
            update_first pred (fun a => { a with time_out := some now }) db.attendances
          (.ok (attendance.id, attendance.time_in, now, duration_minutes),
           { db with attendances := attendances' })

/-- The row filter of the absentee sweep (`mark_absent_no_timeout` lines
1137-1142): same event, `time_in` set (always true here - the column is
non-nullable), `time_out` null, status `present`. -/
def sweep_pred (event_id : Nat) (a : Attendance) : Bool :=
  a.event_id == event_id && a.time_out.isNone && a.status == .present

/-- The per-row update of the sweep: status becomes `absent` and the
audit note is prepended (`f"Auto-marked absent - ... {notes or ''}".strip()`). -/
def sweep_update (a : Attendance) : Attendance :=
  { a with status := .absent,
           notes := some (("Auto-marked absent - no time-out recorded. " ++
                          (a.notes.getD "")).trim) }

/-- Handler `mark_absent_no_timeout` (lines 1116-1156): SSG/admin only; 404 on a
missing event; 400 unless the event status is `completed`; otherwise
every row matched by `sweep_pred` is flipped to absent and the count is
returned. -/
def mark_absent_no_timeout (db : Db) (current_user : User) (event_id : Nat) :
    Except HTTPException (Nat × Nat) × Db :=
  if ¬ has_any_role current_user ["ssg", "admin"] = true then
    (.error ⟨403, "Requires SSG or Admin role"⟩, db)
  else
    match db.events.find? (fun e => e.id == event_id) with
    | none => (.error ⟨404, "Event not found"⟩, db)
    | some event =>
      if event.status ≠ EventStatus.completed then
        (.error ⟨400, "Can only mark absent for completed events"⟩, db)
      else
        let updated_count := (db.attendances.filter (sweep_pred event_id)).length
        let attendances' :=
          db.attendances.map (fun a => if sweep_pred event_id a then sweep_update a else a)
        (.ok (event_id, updated_count), { db with attendances := attendances' })

/-- The duration computation of the reporting endpoints
(`get_student_attendance_report` lines 289-306 and the records
endpoints): `int((time_out - time_in).total_seconds() / 60)` when
`time_out` is set, `None` otherwise. -/
def report_duration_minutes (a : Attendance) : Option Int :=
  match a.time_out with
  | some t_out => some (Int.tdiv ((t_out : Int) - (a.time_in : Int)) 60)
  | none => none


/-! ### General lemmas about the embedding's list operations -/

theorem forall₂_of_refl {α} {R : α → α → Prop} (h : ∀ x, R x x) :
    ∀ l : List α, List.Forall₂ R l l
  | [] => .nil
  | _ :: xs => .cons (h _) (forall₂_of_refl h xs)

theorem forall₂_map_self {α} {R : α → α → Prop} (g : α → α) (h : ∀ x, R x (g x)) :
    ∀ l : List α, List.Forall₂ R l (l.map g)
  | [] => .nil
  | _ :: xs => .cons (h _) (forall₂_map_self g h xs)

/-- The rewrite `update_first` touches at most the first element matched by `p`. -/
theorem forall₂_update_first {α} (p : α → Bool) (f : α → α) :
    ∀ l : List α,
      List.Forall₂ (fun x x' => x' = x ∨ (p x = true ∧ x' = f x)) l (update_first p f l)
  | [] => .nil
  | x :: xs => by
    unfold update_first
    by_cases hp : p x = true
    · rw [if_pos hp]
      exact .cons (Or.inr ⟨hp, rfl⟩)
        (@forall₂_of_refl _ (fun x x' => x' = x ∨ (p x = true ∧ x' = f x))
          (fun _ => Or.inl rfl) xs)
    · rw [if_neg hp]
      exact .cons (Or.inl rfl) (forall₂_update_first p f xs)

/-- After `update_first` rewrites the row that `find?` located, `find?`
locates the rewritten row (provided `f` preserves the search key). -/
theorem find?_update_first {α} (p : α → Bool) (f : α → α)
    (hp : ∀ x, p (f x) = p x) :
    ∀ (l : List α) (a : α), l.find? p = some a →
      (update_first p f l).find? p = some (f a) := by
  intro l
  induction l with
  | nil => intro a h; simp [List.find?] at h
  | cons x xs ih =>
    intro a h
    by_cases hx : p x = true
    · rw [List.find?_cons_of_pos _ hx] at h
      injection h with h
      subst h
      unfold update_first
      rw [if_pos hx]
      exact List.find?_cons_of_pos _ ((hp _).trans hx)
    · rw [List.find?_cons_of_neg _ hx] at h
      unfold update_first
      rw [if_neg hx, List.find?_cons_of_neg _ hx]
      exact ih a h

/-- A stored-id table with distinct ids cannot resolve a list containing
an unknown id to a result of the same length. -/
theorem resolve_ids_length_lt (store ids : List Nat) (hnd : store.Nodup)
    (i : Nat) (hi : i ∈ ids) (hns : i ∉ store) :
    (resolve_ids store ids).length < ids.length := by
  have hsub : resolve_ids store ids ⊆ (ids.dedup.erase i) := by
    intro x hx
    unfold resolve_ids at hx
    rw [List.mem_filter] at hx
    have hxs : x ∈ store := hx.1
    have hxi : x ∈ ids := by simpa using hx.2
    have hne : x ≠ i := fun h => hns (h ▸ hxs)
    exact (List.mem_erase_of_ne hne).mpr (List.mem_dedup.mpr hxi)
  have hnd' : (resolve_ids store ids).Nodup := List.Nodup.filter _ hnd
  have h1 : (resolve_ids store ids).length ≤ (ids.dedup.erase i).length :=
    (hnd'.subperm hsub).length_le
  have hidedup : i ∈ ids.dedup := List.mem_dedup.mpr hi
  have h2 : (ids.dedup.erase i).length = ids.dedup.length - 1 :=
    List.length_erase_of_mem hidedup
  have h3 : ids.dedup.length ≤ ids.length := (List.dedup_sublist ids).length_le
  have h4 : 0 < ids.dedup.length := List.length_pos.mpr (List.ne_nil_of_mem hidedup)
  omega
/-! ### Claim C1: the absentee sweep -/

/-- Claim C1: the absentee sweep (`mark_absent_no_timeout`) changes a
row's status to absent only if the row has `time_in` set (always true:
the column is non-nullable), `time_out` null, and status `present`;
every row that is already absent, excused, or closed is left unchanged;
and the whole operation is rejected - leaving the store unchanged -
unless the event's status is `completed`. -/
theorem c1_absentee_sweep (db : Db) (current_user : User) (event_id : Nat)
    (event : Event)
    (hev : db.events.find? (fun e => e.id == event_id) = some event) :
    (event.status ≠ EventStatus.completed →
      (mark_absent_no_timeout db current_user event_id).2 = db ∧
      ∀ r, (mark_absent_no_timeout db current_user event_id).1 ≠ .ok r) ∧
    (∀ r db', mark_absent_no_timeout db current_user event_id = (.ok r, db') →
      event.status = EventStatus.completed ∧
      List.Forall₂ (fun a a' =>
        ((a.event_id ≠ event_id ∨ a.time_out ≠ none ∨ a.status ≠ .present) → a' = a) ∧
        (a.event_id = event_id ∧ a.time_out = none ∧ a.status = .present →
          a'.status = .absent ∧ a'.time_out = none ∧ a'.time_in = a.time_in ∧
          a'.id = a.id ∧ a'.student_id = a.student_id))
        db.attendances db'.attendances) := by
  unfold mark_absent_no_timeout
  by_cases hrole : has_any_role current_user ["ssg", "admin"] = true
  · rw [if_neg (not_not_intro hrole)]
    simp only [hev]
    by_cases hst : event.status = EventStatus.completed
    · rw [if_neg (not_not_intro hst)]
      constructor
      · intro h
        exact absurd hst h
      · intro r db' h
        refine ⟨hst, ?_⟩
        have h2 := congrArg Prod.snd h
        simp only at h2
        have h3 : db'.attendances =
            db.attendances.map
              (fun a => if sweep_pred event_id a then sweep_update a else a) := by
          rw [← h2]
        rw [h3]
        apply forall₂_map_self
        intro a
        by_cases hsp : sweep_pred event_id a = true
        · rw [if_pos hsp]
          have hd : a.event_id = event_id ∧ a.time_out = none ∧
              a.status = AttendanceStatus.present := by
            simpa [sweep_pred, Bool.and_eq_true, beq_iff_eq,
                   Option.isNone_iff_eq_none, and_assoc] using hsp
          constructor
          · intro hcon
            rcases hcon with h1 | h1 | h1
            · exact absurd hd.1 h1
            · exact absurd hd.2.1 h1
            · exact absurd hd.2.2 h1
          · intro _
            refine ⟨rfl, ?_, rfl, rfl, rfl⟩
            simpa [sweep_update] using hd.2.1
        · rw [if_neg hsp]
          constructor
          · intro _
            rfl
          · intro hcon
            exact absurd (by
              simp [sweep_pred, Bool.and_eq_true, beq_iff_eq,
                    Option.isNone_iff_eq_none, hcon.1, hcon.2.1, hcon.2.2]) hsp
    · rw [if_pos hst]
      constructor
      · intro _
        exact ⟨rfl, fun r h => Except.noConfusion h⟩
      · intro r db' h
        have h1 := congrArg Prod.fst h
        simp only at h1
        exact absurd h1 (fun hh => Except.noConfusion hh)
  · rw [if_pos hrole]
    constructor
    · intro _
      exact ⟨rfl, fun r h => Except.noConfusion h⟩
    · intro r db' h
      have h1 := congrArg Prod.fst h
      simp only at h1
      exact absurd h1 (fun hh => Except.noConfusion hh)

/-- Sample data: an SSG user, a completed event and three attendance
rows (active present, closed present, open excused). -/
def user_ssg : User := ⟨2, "ssg@example.com", ["ssg"]⟩

def ev_orientation : Event := ⟨1, "Orientation", "Hall", 0, 7200, .completed, [], [], []⟩

def db_c1 : Db :=
  ⟨[user_ssg], [⟨1, "CS-2023-001"⟩], [], [], [], [ev_orientation],
   [⟨1, 1, 1, 100, none, "manual", .present, some 2, none⟩,
    ⟨2, 2, 1, 100, some 7000, "manual", .present, some 2, none⟩,
    ⟨3, 3, 1, 150, none, "manual", .excused, some 2, some "sick"⟩], 2, 4⟩

/-- Witness for C1: running the sweep on the concrete completed event
yields the row-by-row behaviour stated by the claim. -/
theorem c1_absentee_sweep_witness :
    db_c1.events.find? (fun e => e.id == 1) = some ev_orientation ∧
    (ev_orientation.status = EventStatus.completed ∧
      List.Forall₂ (fun a a' =>
        ((a.event_id ≠ 1 ∨ a.time_out ≠ none ∨ a.status ≠ .present) → a' = a) ∧
        (a.event_id = 1 ∧ a.time_out = none ∧ a.status = .present →
          a'.status = .absent ∧ a'.time_out = none ∧ a'.time_in = a.time_in ∧
          a'.id = a.id ∧ a'.student_id = a.student_id))
        db_c1.attendances (mark_absent_no_timeout db_c1 user_ssg 1).2.attendances) :=
  ⟨rfl, (c1_absentee_sweep db_c1 user_ssg 1 ev_orientation rfl).2 (1, 1)
      (mark_absent_no_timeout db_c1 user_ssg 1).2 rfl⟩


/-! ### Claim C3: duplicate-scan cooldown -/

/-- Claim C3: a face-scan check-in for a (student, event) pair that
already has an attendance record is rejected - with a 400 whose message
states the minutes elapsed, and without creating a row - when the
elapsed time since that record's `time_in` is below the fixed 300-second
threshold; at or above the threshold a new check-in attempt is allowed,
creating a fresh row. -/
theorem c3_face_scan_cooldown (db : Db) (current_user : User) (now : Nat)
    (event_id : Nat) (student_id : String) (student : StudentProfile)
    (existing : Attendance)
    (hrole : current_user.roles.contains "ssg" = true)
    (hstu : db.students.find? (fun s => s.student_id == student_id) = some student)
    (hex : db.attendances.find?
        (fun a => a.student_id == student.id && a.event_id == event_id) = some existing) :
    (((now : Int) - (existing.time_in : Int)) < 300 →
      record_face_scan_attendance db current_user now event_id student_id =
        (.error ⟨400, "Duplicate scan detected. Last scan was " ++
            toString (Int.tdiv ((now : Int) - (existing.time_in : Int)) 60) ++
            " minutes ago."⟩, db)) ∧
    (300 ≤ ((now : Int) - (existing.time_in : Int)) →
      (record_face_scan_attendance db current_user now event_id student_id).1 =
        .ok (db.next_attendance_id, student.student_id, now) ∧
      (record_face_scan_attendance db current_user now event_id student_id).2.attendances =
        db.attendances ++
          [⟨db.next_attendance_id, student.id, event_id, now, none, "face_scan",
            .present, some current_user.id, none⟩]) := by
  unfold record_face_scan_attendance
  rw [if_neg (not_not_intro hrole)]
  simp only [hstu, hex]
  constructor
  · intro hlt
    rw [if_pos hlt]
  · intro hge
    rw [if_neg (not_lt.mpr hge)]
    exact ⟨rfl, rfl⟩

/-- Sample data for C3: the pair (student 1, event 7) has a record with
`time_in = 100`; a new scan at `now = 200` is 100 seconds later, inside
the 300-second cooldown, 1 whole minute elapsed. -/
def db_c3 : Db :=
  ⟨[user_ssg], [⟨1, "CS-2023-001"⟩], [], [], [], [],
   [⟨1, 1, 7, 100, none, "face_scan", .present, some 2, none⟩], 1, 2⟩

/-- Witness for C3: the concrete duplicate scan inside the cooldown is
rejected with the minutes-elapsed message and the store is unchanged. -/
theorem c3_face_scan_cooldown_witness :
    user_ssg.roles.contains "ssg" = true ∧
    ((200 : Int) - (100 : Int)) < 300 ∧
    record_face_scan_attendance db_c3 user_ssg 200 7 "CS-2023-001" =
      (.error ⟨400, "Duplicate scan detected. Last scan was 1 minutes ago."⟩, db_c3) := by
  refine ⟨by decide, by decide, ?_⟩
  exact (c3_face_scan_cooldown db_c3 user_ssg 200 7 "CS-2023-001" ⟨1, "CS-2023-001"⟩
    ⟨1, 1, 7, 100, none, "face_scan", .present, some 2, none⟩
    (by decide) rfl rfl).1 (by decide)

/-! ### Claim C4: check-out happens at most once -/

/-- Claim C4: the first check-out on a row with `time_out` null sets
`time_out` and returns the computed duration; a second call on the same
row fails with the 400 `Time-out already recorded` conflict and leaves
the store unchanged; and the face-scan variant fails with 404 when the
(student, event) pair has no active (null `time_out`) row. -/
theorem c4_single_checkout (db : Db) (current_user : User)
    (now now2 : Nat) (a : Attendance)
    (hrole : has_any_role current_user ["ssg", "admin"] = true)
    (hfind : db.attendances.find? (fun x => x.id == a.id) = some a) :
    (a.time_out = none →
      (record_time_out db current_user now a.id).1 =
        .ok (a.id, a.time_in, now, Int.tdiv ((now : Int) - (a.time_in : Int)) 60) ∧
      (record_time_out db current_user now a.id).2.attendances.find?
          (fun x => x.id == a.id) = some { a with time_out := some now } ∧
      record_time_out ((record_time_out db current_user now a.id).2) current_user now2 a.id =
        (.error ⟨400, "Time-out already recorded"⟩,
         (record_time_out db current_user now a.id).2)) ∧
    (∀ t, a.time_out = some t →
      record_time_out db current_user now a.id =
        (.error ⟨400, "Time-out already recorded"⟩, db)) ∧
    (∀ (event_id : Nat) (student_id : String) (student : StudentProfile),
      current_user.roles.contains "ssg" = true →
      db.students.find? (fun s => s.student_id == student_id) = some student →
      db.attendances.find? (fun x => x.student_id == student.id &&
          x.event_id == event_id && x.time_out.isNone) = none →
      record_face_scan_timeout db current_user now event_id student_id =
        (.error ⟨404, "No active attendance found for student " ++ student_id⟩, db)) := by
  refine ⟨?_, ?_, ?_⟩
  · intro hto
    have hfind2 : ((record_time_out db current_user now a.id).2).attendances.find?
        (fun x => x.id == a.id) = some { a with time_out := some now } := by
      unfold record_time_out
      rw [if_neg (not_not_intro hrole)]
      simp only [hfind, hto]
      exact find?_update_first (fun x => x.id == a.id)
        (fun x => { x with time_out := some now }) (fun _ => rfl) db.attendances a hfind
    refine ⟨?_, hfind2, ?_⟩
    · unfold record_time_out
      rw [if_neg (not_not_intro hrole)]
      simp only [hfind, hto]
    · have h9 := hfind2
      generalize (record_time_out db current_user now a.id).2 = db1 at h9 ⊢
      unfold record_time_out
      rw [if_neg (not_not_intro hrole)]
      simp only [h9]
  · intro t hto
    unfold record_time_out
    rw [if_neg (not_not_intro hrole)]
    simp only [hfind, hto]
  · intro event_id student_id student hssg hstu hnone
    unfold record_face_scan_timeout
    rw [if_neg (not_not_intro hssg)]
    simp only [hstu, hnone]

/-- Sample data for C4: one active present row with id 5. -/
def user_admin : User := ⟨1, "admin@example.com", ["admin"]⟩

def att_c4 : Attendance := ⟨5, 1, 7, 100, none, "manual", .present, some 2, none⟩

def db_c4 : Db :=
  ⟨[user_admin], [⟨1, "CS-2023-001"⟩], [], [], [], [], [att_c4], 1, 6⟩

/-- Witness for C4: on the concrete store, the first check-out at
`now = 400` succeeds and the second call conflicts with a 400, leaving
the once-updated store as is. -/
theorem c4_single_checkout_witness :
    has_any_role user_admin ["ssg", "admin"] = true ∧
    db_c4.attendances.find? (fun x => x.id == 5) = some att_c4 ∧
    att_c4.time_out = none ∧
    record_time_out ((record_time_out db_c4 user_admin 400 5).2) user_admin 500 5 =
      (.error ⟨400, "Time-out already recorded"⟩, (record_time_out db_c4 user_admin 400 5).2) := by
  refine ⟨by decide, rfl, rfl, ?_⟩
  exact ((c4_single_checkout db_c4 user_admin 400 500 att_c4 (by decide) rfl).1 rfl).2.2

/-! ### Claim C7: durations are floored whole minutes -/

/-- Truncation `Int.tdiv` of a natural-number cast by 60 is natural floor division
(so the Python `int(... / 60)` truncation is a floor whenever the
elapsed time is nonnegative). -/
theorem tdiv_ofNat_sixty (m : Nat) :
    Int.tdiv (m : Int) (60 : Int) = ((m / 60 : Nat) : Int) := rfl

/-- Claim C7: for a row with both timestamps set (and `time_in` not
after `time_out`), the reported duration - in the attendance reports and
in the check-out response - equals the elapsed seconds divided by 60,
rounded down to whole minutes. -/
theorem c7_duration_floored (a b : Attendance) (t_out now : Nat) (db : Db)
    (current_user : User) :
    (a.time_out = some t_out → a.time_in ≤ t_out →
      report_duration_minutes a = some (((t_out - a.time_in) / 60 : Nat) : Int)) ∧
    (has_any_role current_user ["ssg", "admin"] = true →
      db.attendances.find? (fun x => x.id == b.id) = some b →
      b.time_out = none → b.time_in ≤ now →
      (record_time_out db current_user now b.id).1 =
        .ok (b.id, b.time_in, now, (((now - b.time_in) / 60 : Nat) : Int))) := by
  constructor
  · intro hto hle
    unfold report_duration_minutes
    simp only [hto]
    rw [show ((t_out : Int) - (a.time_in : Int)) = (((t_out - a.time_in : Nat)) : Int) from
      (Int.ofNat_sub hle).symm]
    rw [tdiv_ofNat_sixty]
  · intro hrole hfind hto hle
    unfold record_time_out
    rw [if_neg (not_not_intro hrole)]
    simp only [hfind, hto]
    rw [show ((now : Int) - (b.time_in : Int)) = (((now - b.time_in : Nat)) : Int) from
      (Int.ofNat_sub hle).symm]
    rw [tdiv_ofNat_sixty]

/-- Sample closed row for C7: `time_in = 30`, `time_out = 150`, elapsed
120 seconds, 2 whole minutes. -/
def att_c7 : Attendance := ⟨9, 1, 7, 30, some 150, "manual", .present, some 2, none⟩

/-- Witness for C7: the report duration of the concrete closed row is 2
minutes, and the concrete check-out at `now = 400` of the row with
`time_in = 100` returns 5 minutes - both floored. -/
theorem c7_duration_floored_witness :
    report_duration_minutes att_c7 = some 2 ∧
    (record_time_out db_c4 user_admin 400 5).1 = .ok (5, 100, 400, 5) := by
  constructor
  · exact (c7_duration_floored att_c7 att_c4 150 400 db_c4 user_admin).1 rfl (by decide)
  · exact (c7_duration_floored att_c7 att_c4 150 400 db_c4 user_admin).2 (by decide) rfl rfl
      (by decide)


/-! ### Lemmas about event creation and update -/

/-- Elements of `update_first p f l` come from `l`, either untouched or
through `f`. -/
theorem mem_update_first {α} (p : α → Bool) (f : α → α) (l : List α) (x : α)
    (hx : x ∈ update_first p f l) : x ∈ l ∨ ∃ y ∈ l, x = f y := by
  induction l with
  | nil => cases hx
  | cons a as ih =>
    unfold update_first at hx
    by_cases hp : p a = true
    · rw [if_pos hp] at hx
      rcases List.mem_cons.mp hx with h | h
      · exact Or.inr ⟨a, List.mem_cons_self a as, h⟩
      · exact Or.inl (List.mem_cons_of_mem _ h)
    · rw [if_neg hp] at hx
      rcases List.mem_cons.mp hx with h | h
      · exact Or.inl (h ▸ List.mem_cons_self a as)
      · rcases ih h with h1 | ⟨y, hy, he⟩
        · exact Or.inl (List.mem_cons_of_mem _ h1)
        · exact Or.inr ⟨y, List.mem_cons_of_mem _ hy, he⟩

/-- What a successful pass through `create_event_core` guarantees: all
the guards were crossed, the stored timestamps are the requested ones,
and with an empty program list the stored SSG set is empty. -/
theorem create_event_core_ok (db : Db) (current_user : User) (event : EventCreate)
    (ev : Event) (hok : create_event_core db current_user event = .ok ev) :
    event.start_datetime < event.end_datetime ∧
    ev.start_datetime = event.start_datetime ∧
    ev.end_datetime = event.end_datetime ∧
    (event.program_ids = [] → ev.ssg_members = []) ∧
    (event.department_ids ≠ [] →
      (resolve_ids db.departments event.department_ids).length =
        event.department_ids.length) ∧
    (event.program_ids ≠ [] →
      (resolve_ids db.programs event.program_ids).length = event.program_ids.length) ∧
    (event.program_ids ≠ [] → event.ssg_member_ids ≠ [] →
      (resolve_ids db.ssg_profiles event.ssg_member_ids).length =
        event.ssg_member_ids.length) := by
  unfold create_event_core at hok
  by_cases h1 : ¬ has_any_role current_user ["ssg", "admin", "event-organizer"] = true
  · rw [if_pos h1] at hok
    exact absurd hok (fun h => Except.noConfusion h)
  · rw [if_neg h1] at hok
    by_cases h2 : event.end_datetime ≤ event.start_datetime
    · rw [if_pos h2] at hok
      exact absurd hok (fun h => Except.noConfusion h)
    · rw [if_neg h2] at hok
      by_cases h3 : event.department_ids ≠ [] ∧
          (resolve_ids db.departments event.department_ids).length ≠
            event.department_ids.length
      · rw [if_pos h3] at hok
        exact absurd hok (fun h => Except.noConfusion h)
      · rw [if_neg h3] at hok
        by_cases h4 : event.program_ids ≠ [] ∧
            (resolve_ids db.programs event.program_ids).length ≠ event.program_ids.length
        · rw [if_pos h4] at hok
          exact absurd hok (fun h => Except.noConfusion h)
        · rw [if_neg h4] at hok
          by_cases h5 : event.program_ids ≠ [] ∧ event.ssg_member_ids ≠ [] ∧
              (resolve_ids db.ssg_profiles event.ssg_member_ids).length ≠
                event.ssg_member_ids.length
          · rw [if_pos h5] at hok
            exact absurd hok (fun h => Except.noConfusion h)
          · rw [if_neg h5] at hok
            injection hok with h
            subst h
            refine ⟨not_le.mp h2, rfl, rfl, ?_, ?_, ?_, ?_⟩
            · intro hp
              simp [hp]
            · intro hne
              by_contra hne2
              exact h3 ⟨hne, hne2⟩
            · intro hne
              by_contra hne2
              exact h4 ⟨hne, hne2⟩
            · intro hp hs
              by_contra hne2
              exact h5 ⟨hp, hs, hne2⟩

/-- A successful SSG step keeps the timestamps of its input event. -/
theorem update_event_ssg_ok (db : Db) (e1 : Event) (event_update : EventUpdate)
    (ev : Event) (hok : update_event_ssg db e1 event_update = .ok ev) :
    ev.start_datetime = e1.start_datetime ∧ ev.end_datetime = e1.end_datetime := by
  unfold update_event_ssg at hok
  cases hu : event_update.ssg_member_ids with
  | none =>
    rw [hu] at hok
    injection hok with h
    subst h
    exact ⟨rfl, rfl⟩
  | some ids =>
    simp only [hu] at hok
    by_cases hlen : (resolve_ids db.ssg_profiles ids).length ≠ ids.length
    · rw [if_pos hlen] at hok
      exact absurd hok (fun h => Except.noConfusion h)
    · rw [if_neg hlen] at hok
      injection hok with h
      subst h
      exact ⟨rfl, rfl⟩

/-- A successful program step keeps the timestamps of its input event. -/
theorem update_event_programs_ok (db : Db) (e1 : Event) (event_update : EventUpdate)
    (ev : Event) (hok : update_event_programs db e1 event_update = .ok ev) :
    ev.start_datetime = e1.start_datetime ∧ ev.end_datetime = e1.end_datetime := by
  unfold update_event_programs at hok
  cases hu : event_update.program_ids with
  | none =>
    rw [hu] at hok
    exact update_event_ssg_ok db e1 event_update ev hok
  | some ids =>
    simp only [hu] at hok
    by_cases hlen : (resolve_ids db.programs ids).length ≠ ids.length
    · rw [if_pos hlen] at hok
      exact absurd hok (fun h => Except.noConfusion h)
    · rw [if_neg hlen] at hok
      have h := update_event_ssg_ok db
        { e1 with programs := resolve_ids db.programs ids } event_update ev hok
      exact ⟨h.1, h.2⟩

/-- A successful `update_event_core` stores an event whose timestamps
are the combined (request, existing) pair, already checked ordered. -/
theorem update_event_core_ok (db : Db) (current_user : User) (event_id : Nat)
    (event_update : EventUpdate) (ev : Event)
    (hok : update_event_core db current_user event_id event_update = .ok ev) :
    ev.start_datetime < ev.end_datetime := by
  unfold update_event_core at hok
  by_cases h1 : ¬ has_any_role current_user ["ssg", "admin", "event-organizer"] = true
  · rw [if_pos h1] at hok
    exact absurd hok (fun h => Except.noConfusion h)
  · rw [if_neg h1] at hok
    cases hfind : db.events.find? (fun e => e.id == event_id) with
    | none =>
      rw [hfind] at hok
      exact absurd hok (fun h => Except.noConfusion h)
    | some db_event =>
      simp only [hfind] at hok
      by_cases hle : event_update.end_datetime.getD db_event.end_datetime ≤
          event_update.start_datetime.getD db_event.start_datetime
      · rw [if_pos hle] at hok
        exact absurd hok (fun h => Except.noConfusion h)
      · rw [if_neg hle] at hok
        cases hd : event_update.department_ids with
        | none =>
          simp only [hd] at hok
          have h := update_event_programs_ok db _ event_update ev hok
          rw [h.1, h.2]
          exact not_le.mp hle
        | some ids =>
          simp only [hd] at hok
          by_cases hlen : (resolve_ids db.departments ids).length ≠ ids.length
          · rw [if_pos hlen] at hok
            exact absurd hok (fun h => Except.noConfusion h)
          · rw [if_neg hlen] at hok
            have h := update_event_programs_ok db _ event_update ev hok
            rw [h.1, h.2]
            exact not_le.mp hle

/-! ### Claim C2: all-or-nothing event creation -/

/-- Sample store and request for C2/C9: an empty store (one admin user)
and a creation request with no departments, no programs, and one
unresolvable SSG-member id 99. -/
def db_c2 : Db := ⟨[⟨1, "admin@example.com", ["admin"]⟩], [], [], [], [], [], [], 1, 1⟩

def req_c2 : EventCreate := ⟨"Orientation", "Hall", 0, 7200, .upcoming, [], [], [99]⟩

/-- Counterexample to C2 as stated: `req_c2` supplies the SSG-member id
99, which resolves to nothing (`db_c2.ssg_profiles = []`), yet the
operation does not abort: the event row is committed.  The SSG lookup of
`create_event` is nested inside the non-empty-`program_ids` branch, so
with an empty program list unresolvable SSG ids are never checked. -/
theorem c2_counterexample :
    (99 ∈ req_c2.ssg_member_ids ∧ 99 ∉ db_c2.ssg_profiles) ∧
    (create_event db_c2 ⟨1, "admin@example.com", ["admin"]⟩ req_c2).1 =
      .ok ⟨1, "Orientation", "Hall", 0, 7200, .upcoming, [], [], []⟩ ∧
    (create_event db_c2 ⟨1, "admin@example.com", ["admin"]⟩ req_c2).2.events =
      [⟨1, "Orientation", "Hall", 0, 7200, .upcoming, [], [], []⟩] :=
  ⟨⟨by decide, by decide⟩, rfl, rfl⟩

/-- Claim C2 (amended): an event-creation request aborts as a whole -
error result, nothing committed - whenever a supplied department or
program id does not resolve, or whenever an SSG-member id does not
resolve *and the supplied program-id list is non-empty*.  (With an empty
program list the SSG ids are ignored, see C9.)  The stored id tables are
assumed duplicate-free, as primary-key columns are. -/
theorem c2_all_or_nothing_amended (db : Db) (current_user : User) (event : EventCreate)
    (hndd : db.departments.Nodup) (hndp : db.programs.Nodup)
    (hnds : db.ssg_profiles.Nodup)
    (hbad : (∃ d ∈ event.department_ids, d ∉ db.departments) ∨
            (∃ p ∈ event.program_ids, p ∉ db.programs) ∨
            (event.program_ids ≠ [] ∧ ∃ s ∈ event.ssg_member_ids, s ∉ db.ssg_profiles)) :
    create_event db current_user event = (.error ⟨500, "Internal server error"⟩, db) := by
  cases hc : create_event_core db current_user event with
  | error e =>
    unfold create_event
    rw [hc]
  | ok ev =>
    exfalso
    obtain ⟨hlt, hs, he, hssg0, hdl, hpl, hsl⟩ :=
      create_event_core_ok db current_user event ev hc
    rcases hbad with ⟨d, hd, hnd⟩ | ⟨p, hp, hnp⟩ | ⟨hpne, s, hs2, hns⟩
    · exact Nat.ne_of_lt
        (resolve_ids_length_lt db.departments event.department_ids hndd d hd hnd)
        (hdl (List.ne_nil_of_mem hd))
    · exact Nat.ne_of_lt
        (resolve_ids_length_lt db.programs event.program_ids hndp p hp hnp)
        (hpl (List.ne_nil_of_mem hp))
    · exact Nat.ne_of_lt
        (resolve_ids_length_lt db.ssg_profiles event.ssg_member_ids hnds s hs2 hns)
        (hsl hpne (List.ne_nil_of_mem hs2))

/-- Request for the C2 witness: department id 42 does not resolve. -/
def req_c2d : EventCreate := ⟨"X", "Y", 0, 10, .upcoming, [42], [], []⟩

/-- Witness for the amended C2: the concrete request with the unknown
department id 42 is aborted and nothing is committed. -/
theorem c2_all_or_nothing_amended_witness :
    db_c2.departments.Nodup ∧ db_c2.programs.Nodup ∧ db_c2.ssg_profiles.Nodup ∧
    (42 ∈ req_c2d.department_ids ∧ 42 ∉ db_c2.departments) ∧
    create_event db_c2 ⟨1, "admin@example.com", ["admin"]⟩ req_c2d =
      (.error ⟨500, "Internal server error"⟩, db_c2) :=
  ⟨by decide, by decide, by decide, ⟨by decide, by decide⟩,
   c2_all_or_nothing_amended db_c2 ⟨1, "admin@example.com", ["admin"]⟩ req_c2d
     (by decide) (by decide) (by decide) (Or.inl ⟨42, by decide, by decide⟩)⟩

/-! ### Claim C9: SSG ids are ignored when the program list is empty -/

/-- Claim C9: with an empty `program_ids` list, the supplied
`ssg_member_ids` (resolvable or not) have no effect on event creation:
the outcome is identical for any SSG id list, and a created event has
no assigned SSG members. -/
theorem c9_ssg_ignored_without_programs (db : Db) (current_user : User)
    (event : EventCreate) (hprog : event.program_ids = []) :
    (∀ ids : List Nat,
      create_event db current_user { event with ssg_member_ids := ids } =
        create_event db current_user event) ∧
    (∀ ev, (create_event db current_user event).1 = .ok ev → ev.ssg_members = []) := by
  constructor
  · intro ids
    unfold create_event create_event_core
    simp [hprog]
  · intro ev hok
    unfold create_event at hok
    cases hc : create_event_core db current_user event with
    | error e =>
      rw [hc] at hok
      exact absurd hok (fun h => Except.noConfusion h)
    | ok ev2 =>
      rw [hc] at hok
      simp only at hok
      injection hok with h
      subst h
      exact (create_event_core_ok db current_user event ev2 hc).2.2.2.1 hprog

/-- Witness for C9: the concrete creation request with an empty program
list and the unresolvable SSG id 99 behaves identically with SSG id
list `[77]`, and the event it commits has no SSG members. -/
theorem c9_ssg_ignored_without_programs_witness :
    req_c2.program_ids = [] ∧
    create_event db_c2 ⟨1, "admin@example.com", ["admin"]⟩
        { req_c2 with ssg_member_ids := [77] } =
      create_event db_c2 ⟨1, "admin@example.com", ["admin"]⟩ req_c2 ∧
    (⟨1, "Orientation", "Hall", 0, 7200, .upcoming, [], [], []⟩ : Event).ssg_members = [] := by
  refine ⟨rfl, ?_, ?_⟩
  · exact (c9_ssg_ignored_without_programs db_c2 ⟨1, "admin@example.com", ["admin"]⟩
      req_c2 rfl).1 [77]
  · exact (c9_ssg_ignored_without_programs db_c2 ⟨1, "admin@example.com", ["admin"]⟩
      req_c2 rfl).2 ⟨1, "Orientation", "Hall", 0, 7200, .upcoming, [], [], []⟩ rfl

/-! ### Claim C6: end strictly after start -/

/-- Request for C6: start 10, end 5 - violating `end > start`. -/
def req_c6 : EventCreate := ⟨"X", "Y", 10, 5, .upcoming, [], [], []⟩

/-- Counterexample to C6 as stated: the violating creation request IS
rejected and nothing is stored, but not "with a validation error": the
`create_event` handler has no `except HTTPException` clause, so the 400
`End datetime must be after start datetime` raised inside is masked by
the catch-all and surfaces as a 500 `Internal server error`. -/
theorem c6_counterexample :
    req_c6.end_datetime ≤ req_c6.start_datetime ∧
    create_event db_c2 ⟨1, "admin@example.com", ["admin"]⟩ req_c6 =
      (.error ⟨500, "Internal server error"⟩, db_c2) ∧
    (create_event db_c2 ⟨1, "admin@example.com", ["admin"]⟩ req_c6).1 ≠
      .error ⟨400, "End datetime must be after start datetime"⟩ := by
  refine ⟨by decide, rfl, ?_⟩
  intro h
  rw [show (create_event db_c2 ⟨1, "admin@example.com", ["admin"]⟩ req_c6).1 =
      Except.error ⟨500, "Internal server error"⟩ from rfl] at h
  injection h with h1
  exact absurd (congrArg HTTPException.code h1) (by decide)

/-- Claim C6 (amended): `end_datetime > start_datetime` holds for every
stored event - both creation and update preserve the invariant, and a
violating request is rejected leaving the store unchanged; the update
path rejects with the 400 validation error, while the creation path
surfaces the same validation failure as a 500 internal server error
(its catch-all handler masks the inner 400). -/
theorem c6_datetime_invariant_amended (db : Db) (current_user : User)
    (event : EventCreate) (event_id : Nat) (event_update : EventUpdate)
    (hinv : ∀ e ∈ db.events, e.start_datetime < e.end_datetime) :
    (∀ e ∈ (create_event db current_user event).2.events,
        e.start_datetime < e.end_datetime) ∧
    (∀ e ∈ (update_event db current_user event_id event_update).2.events,
        e.start_datetime < e.end_datetime) ∧
    (event.end_datetime ≤ event.start_datetime →
      create_event db current_user event = (.error ⟨500, "Internal server error"⟩, db)) ∧
    (∀ ev, db.events.find? (fun e => e.id == event_id) = some ev →
      has_any_role current_user ["ssg", "admin", "event-organizer"] = true →
      event_update.end_datetime.getD ev.end_datetime ≤
        event_update.start_datetime.getD ev.start_datetime →
      update_event db current_user event_id event_update =
        (.error ⟨400, "End datetime must be after start datetime"⟩, db)) := by
  refine ⟨?_, ?_, ?_, ?_⟩
  · cases hc : create_event_core db current_user event with
    | error e =>
      unfold create_event
      rw [hc]
      exact hinv
    | ok ev =>
      unfold create_event
      rw [hc]
      intro e he
      simp only at he
      rcases List.mem_append.mp he with h | h
      · exact hinv e h
      · obtain ⟨hlt, hs, hen, _⟩ := create_event_core_ok db current_user event ev hc
        rcases List.mem_singleton.mp h with rfl
        rw [hs, hen]
        exact hlt
  · cases hc : update_event_core db current_user event_id event_update with
    | error e =>
      unfold update_event
      rw [hc]
      exact hinv
    | ok ev =>
      unfold update_event
      rw [hc]
      intro e he
      simp only at he
      rcases mem_update_first _ _ _ _ he with h | ⟨y, hy, heq⟩
      · exact hinv e h
      · rcases heq with rfl
        exact update_event_core_ok db current_user event_id event_update _ hc
  · intro hviol
    have hc : ∃ e, create_event_core db current_user event = .error e := by
      unfold create_event_core
      by_cases h1 : ¬ has_any_role current_user ["ssg", "admin", "event-organizer"] = true
      · rw [if_pos h1]
        exact ⟨_, rfl⟩
      · rw [if_neg h1, if_pos hviol]
        exact ⟨_, rfl⟩
    obtain ⟨e, hc⟩ := hc
    unfold create_event
    rw [hc]
  · intro ev hfind hrole hviol
    unfold update_event update_event_core
    rw [if_neg (not_not_intro hrole), hfind]
    simp only
    rw [if_pos hviol]

/-- Update request for the C6 witness: move the start to 9000, past the
stored end 7200. -/
def upd_c6 : EventUpdate := ⟨none, none, some 9000, none, none, none, none, none⟩

/-- Witness for the amended C6: on the concrete store, the violating
creation request is rejected as a 500 with nothing stored, and the
violating update of event 1 is rejected with the 400 validation error,
leaving the store unchanged. -/
theorem c6_datetime_invariant_amended_witness :
    (∀ e ∈ db_c1.events, e.start_datetime < e.end_datetime) ∧
    req_c6.end_datetime ≤ req_c6.start_datetime ∧
    create_event db_c1 user_ssg req_c6 = (.error ⟨500, "Internal server error"⟩, db_c1) ∧
    update_event db_c1 user_ssg 1 upd_c6 =
      (.error ⟨400, "End datetime must be after start datetime"⟩, db_c1) := by
  have h := c6_datetime_invariant_amended db_c1 user_ssg req_c6 1 upd_c6 (by decide)
  exact ⟨by decide, by decide, h.2.2.1 (by decide),
    h.2.2.2 ev_orientation rfl (by decide) (by decide)⟩


/-! ### Claim C5: bulk attendance is per-item, never all-or-nothing -/

/-- Each bulk item yields one of exactly three outcome tags. -/
theorem bulk_step_tag (current_user : User) (now : Nat) (db : Db)
    (pending : List Attendance) (record : Nat × String × Option String) :
    (bulk_step current_user now db pending record).2.2 = "recorded" ∨
    (bulk_step current_user now db pending record).2.2 = "exists" ∨
    (bulk_step current_user now db pending record).2.2 = "not_found" := by
  cases hstu : db.students.find? (fun s => s.student_id == record.2.1) with
  | none =>
    simp only [bulk_step, hstu]
    exact Or.inr (Or.inr trivial)
  | some student =>
    cases hex : db.attendances.find?
        (fun a => a.student_id == student.id && a.event_id == record.1) with
    | none =>
      simp only [bulk_step, hstu, hex]
      exact Or.inl trivial
    | some ex =>
      simp only [bulk_step, hstu, hex]
      exact Or.inr (Or.inl trivial)

/-- The bulk loop returns one outcome per input item, each tagged
`recorded`, `exists` or `not_found`. -/
theorem bulk_fold_spec (current_user : User) (now : Nat) (db : Db) :
    ∀ (records : List (Nat × String × Option String)) (pending : List Attendance),
      (bulk_fold current_user now db pending records).2.length = records.length ∧
      ∀ p ∈ (bulk_fold current_user now db pending records).2,
        p.2 = "recorded" ∨ p.2 = "exists" ∨ p.2 = "not_found" := by
  intro records
  induction records with
  | nil =>
    intro pending
    exact ⟨rfl, fun p hp => absurd hp (List.not_mem_nil p)⟩
  | cons r rs ih =>
    intro pending
    unfold bulk_fold
    constructor
    · simp only [List.length_cons]
      exact congrArg (· + 1) ((ih _).1)
    · intro p hp
      rcases List.mem_cons.mp hp with h | h
      · rcases bulk_step_tag current_user now db pending r with h1 | h1 | h1 <;>
          rw [h] <;> [exact Or.inl h1; exact Or.inr (Or.inl h1); exact Or.inr (Or.inr h1)]
      · exact (ih _).2 p h

/-- Claim C5: with the SSG role, a bulk request always succeeds as a
whole, returning one outcome per input item (`recorded` | `exists` |
`not_found`), the pending inserts being committed at the end; each item
is classified independently against the batch-start store (the session
does not autoflush): unknown student number → `not_found` (nothing
created), (student, event) record already stored → `exists` (nothing
created), else a fresh `present` row joins the pending inserts and the
item is `recorded`. -/
theorem c5_bulk_partial_success (db : Db) (current_user : User) (now : Nat)
    (records : List (Nat × String × Option String))
    (hrole : current_user.roles.contains "ssg" = true) :
    ((record_bulk_attendance db current_user now records).1 =
      .ok ((bulk_fold current_user now db [] records).2.length,
           (bulk_fold current_user now db [] records).2) ∧
     (record_bulk_attendance db current_user now records).2.attendances =
       db.attendances ++ (bulk_fold current_user now db [] records).1 ∧
     (bulk_fold current_user now db [] records).2.length = records.length ∧
     ∀ p ∈ (bulk_fold current_user now db [] records).2,
       p.2 = "recorded" ∨ p.2 = "exists" ∨ p.2 = "not_found") ∧
    (∀ (s : Db) (pending : List Attendance) (r : Nat × String × Option String),
      (s.students.find? (fun st => st.student_id == r.2.1) = none →
        bulk_step current_user now s pending r = (pending, (r.2.1, "not_found"))) ∧
      (∀ student, s.students.find? (fun st => st.student_id == r.2.1) = some student →
        (∀ ex, s.attendances.find?
            (fun a => a.student_id == student.id && a.event_id == r.1) = some ex →
          bulk_step current_user now s pending r = (pending, (r.2.1, "exists"))) ∧
        (s.attendances.find?
            (fun a => a.student_id == student.id && a.event_id == r.1) = none →
          bulk_step current_user now s pending r =
            (pending ++
              [⟨s.next_attendance_id + pending.length, student.id, r.1, now, none,
                "manual", .present, some current_user.id, r.2.2⟩],
             (r.2.1, "recorded"))))) := by
  constructor
  · refine ⟨?_, ?_, (bulk_fold_spec current_user now db records []).1,
      (bulk_fold_spec current_user now db records []).2⟩
    · unfold record_bulk_attendance
      rw [if_neg (not_not_intro hrole)]
    · unfold record_bulk_attendance
      rw [if_neg (not_not_intro hrole)]
  · intro s pending r
    constructor
    · intro hnone
      unfold bulk_step
      simp only [hnone]
    · intro student hstu
      constructor
      · intro ex hex
        unfold bulk_step
        simp only [hstu, hex]
      · intro hnone
        unfold bulk_step
        simp only [hstu, hnone]

/-- Sample store and batch for C5: student `CS-2023-001` already has a
record at event 7; `GHOST` is unknown; the third item is recordable,
and the fourth repeats the third pair - since the session never flushes
inside the loop, it is `recorded` a second time. -/
def db_c5 : Db :=
  ⟨[user_ssg], [⟨1, "CS-2023-001"⟩], [], [], [], [],
   [⟨1, 1, 7, 100, none, "manual", .present, some 2, none⟩], 1, 2⟩

def recs_c5 : List (Nat × String × Option String) :=
  [(7, "CS-2023-001", none), (7, "GHOST", none), (8, "CS-2023-001", some "late"),
   (8, "CS-2023-001", none)]

/-- Witness for C5: on the concrete batch the whole request succeeds
with the per-item outcomes `exists`, `not_found`, `recorded`,
`recorded` - the repeated pair is inserted twice, not reported
`exists`. -/
theorem c5_bulk_partial_success_witness :
    user_ssg.roles.contains "ssg" = true ∧
    (record_bulk_attendance db_c5 user_ssg 500 recs_c5).1 =
      .ok ((bulk_fold user_ssg 500 db_c5 [] recs_c5).2.length,
           (bulk_fold user_ssg 500 db_c5 [] recs_c5).2) ∧
    (bulk_fold user_ssg 500 db_c5 [] recs_c5).2 =
      [("CS-2023-001", "exists"), ("GHOST", "not_found"), ("CS-2023-001", "recorded"),
       ("CS-2023-001", "recorded")] ∧
    (record_bulk_attendance db_c5 user_ssg 500 recs_c5).2.attendances.length = 3 := by
  refine ⟨by decide, ?_, by decide, by decide⟩
  exact (c5_bulk_partial_success db_c5 user_ssg 500 recs_c5 (by decide)).1.1

/-! ### Claim C10: excuse marking skips unknown ids and upserts -/

/-- Claim C10: excuse marking ignores student identifiers that resolve
to no profile (same outcome as if they had not been supplied, no error),
upserts each resolved student's record for the event to `excused` with
the notes replaced by the reason (creating the row if absent), and
reports the number of resolved students, not the number of supplied
identifiers. -/
theorem c10_mark_excused_upsert (db : Db) (current_user : User) (now : Nat)
    (event_id : Nat) (student_ids : List String) (reason : String)
    (hrole : has_any_role current_user ["ssg", "admin"] = true) :
    ((mark_excused_attendance db current_user now event_id student_ids reason).1 =
      .ok ("Marked " ++
        toString (db.students.filter
          (fun s => student_ids.contains s.student_id)).length ++
        " students as excused")) ∧
    (mark_excused_attendance db current_user now event_id student_ids reason =
      mark_excused_attendance db current_user now event_id
        (student_ids.filter (fun i => db.students.any (fun st => st.student_id == i)))
        reason) ∧
    (∀ (s : Db) (student : StudentProfile),
      (∀ a, s.attendances.find? (fun x => x.student_id == student.id &&
          x.event_id == event_id) = some a →
        (mark_excused_step current_user now event_id reason s student).attendances.find?
            (fun x => x.student_id == student.id && x.event_id == event_id) =
          some { a with status := .excused, notes := some reason } ∧
        List.Forall₂ (fun x x' => x' = x ∨
            ((x.student_id == student.id && x.event_id == event_id) = true ∧
             x' = { x with status := .excused, notes := some reason }))
          s.attendances
          (mark_excused_step current_user now event_id reason s student).attendances) ∧
      (s.attendances.find? (fun x => x.student_id == student.id &&
          x.event_id == event_id) = none →
        (mark_excused_step current_user now event_id reason s student).attendances =
          s.attendances ++
            [⟨s.next_attendance_id, student.id, event_id, now, none, "manual",
              .excused, some current_user.id, some reason⟩])) := by
  have hfilter : db.students.filter (fun s => student_ids.contains s.student_id) =
      db.students.filter (fun s =>
        (student_ids.filter
          (fun i => db.students.any (fun st => st.student_id == i))).contains
            s.student_id) := by
    apply List.filter_congr
    intro s hs
    apply Bool.coe_iff_coe.mp
    constructor
    · intro hmem
      have hmem2 : s.student_id ∈ student_ids := List.elem_iff.mp hmem
      refine List.elem_iff.mpr (List.mem_filter.mpr ⟨hmem2, ?_⟩)
      exact List.any_eq_true.mpr ⟨s, hs, by simp⟩
    · intro hmem
      exact List.elem_iff.mpr (List.mem_filter.mp (List.elem_iff.mp hmem)).1
  refine ⟨?_, ?_, ?_⟩
  · unfold mark_excused_attendance
    rw [if_neg (not_not_intro hrole)]
  · unfold mark_excused_attendance
    simp only [if_neg (not_not_intro hrole)]
    rw [hfilter]
  · intro s student
    constructor
    · intro a hfind
      unfold mark_excused_step
      simp only [hfind]
      refine ⟨?_, forall₂_update_first _ _ s.attendances⟩
      exact find?_update_first _
        (fun x => { x with status := .excused, notes := some reason })
        (fun _ => rfl) s.attendances a hfind
    · intro hfind
      unfold mark_excused_step
      simp only [hfind]

/-- Sample store for C10: two known students, one with an existing
present row at event 7. -/
def db_c10 : Db :=
  ⟨[user_ssg], [⟨1, "A1"⟩, ⟨2, "A2"⟩], [], [], [], [],
   [⟨1, 1, 7, 100, none, "manual", .present, some 2, none⟩], 1, 2⟩

/-- Witness for C10: supplying three identifiers of which only two
resolve reports `Marked 2 students as excused`, identically to
supplying just the two resolvable ones; and the existing present row of
student `A1` at event 7 really is rewritten to excused with the reason
as its notes. -/
theorem c10_mark_excused_upsert_witness :
    has_any_role user_ssg ["ssg", "admin"] = true ∧
    (mark_excused_attendance db_c10 user_ssg 900 7 ["A1", "A2", "GHOST"] "sick").1 =
      .ok ("Marked " ++
        toString (db_c10.students.filter
          (fun s => ["A1", "A2", "GHOST"].contains s.student_id)).length ++
        " students as excused") ∧
    (db_c10.students.filter (fun s => ["A1", "A2", "GHOST"].contains s.student_id)).length
      = 2 ∧
    mark_excused_attendance db_c10 user_ssg 900 7 ["A1", "A2", "GHOST"] "sick" =
      mark_excused_attendance db_c10 user_ssg 900 7
        (["A1", "A2", "GHOST"].filter
          (fun i => db_c10.students.any (fun st => st.student_id == i))) "sick" ∧
    (mark_excused_step user_ssg 900 7 "sick" db_c10 ⟨1, "A1"⟩).attendances.find?
        (fun x => x.student_id == 1 && x.event_id == 7) =
      some ⟨1, 1, 7, 100, none, "manual", .excused, some 2, some "sick"⟩ := by
  refine ⟨by decide, ?_, by decide, ?_, ?_⟩
  · exact (c10_mark_excused_upsert db_c10 user_ssg 900 7 ["A1", "A2", "GHOST"] "sick"
      (by decide)).1
  · exact (c10_mark_excused_upsert db_c10 user_ssg 900 7 ["A1", "A2", "GHOST"] "sick"
      (by decide)).2.1
  · exact (((c10_mark_excused_upsert db_c10 user_ssg 900 7 ["A1", "A2", "GHOST"] "sick"
      (by decide)).2.2 db_c10 ⟨1, "A1"⟩).1
        ⟨1, 1, 7, 100, none, "manual", .present, some 2, none⟩ rfl).1

/-! ### Claim C8: authentication and authorization failure modes -/

/-- Claim C8: an unknown/invalid/expired token, a token without a `sub`
claim, or a `sub` that resolves to no user all fail as unauthenticated
(401); a valid token whose user lacks every role of the endpoint's
allowed set fails as forbidden (403). -/
theorem c8_auth_failure_modes (db : Db) (token : Token)
    (required_roles : List String) :
    ((token.signature_valid = false ∨ token.expired = true ∨ token.sub = none ∨
      (∀ email, token.sub = some email →
        db.users.find? (fun u => u.email == email) = none)) →
      get_current_user db token = .error ⟨401, "Could not validate credentials"⟩) ∧
    (∀ current_user, get_current_user db token = .ok current_user →
      ((¬ current_user.roles.contains "admin" = true →
        get_current_admin db token = .error ⟨403, "Admin privileges required"⟩) ∧
       (required_roles.any (fun r => current_user.roles.contains r) = false →
        get_user_with_required_roles db token required_roles =
          .error ⟨403, "Insufficient permissions. Required roles: " ++
            String.intercalate ", " required_roles⟩))) := by
  constructor
  · intro hbad
    unfold get_current_user jwt_decode
    by_cases hv : (token.signature_valid && !token.expired) = true
    · rw [if_pos hv]
      rw [Bool.and_eq_true] at hv
      rcases hbad with h | h | h | h
      · rw [h] at hv
        exact absurd hv.1 (by simp)
      · rw [h] at hv
        exact absurd hv.2 (by simp)
      · rw [h]
        rfl
      · cases hsub : token.sub with
        | none => rfl
        | some email =>
          have hf := h email hsub
          simp only [hf]
          rfl
    · rw [if_neg hv]
      rfl
  · intro current_user hok
    constructor
    · intro hna
      unfold get_current_admin
      rw [hok]
      simp only
      rw [if_neg hna]
    · intro hfalse
      unfold get_user_with_required_roles
      rw [hok]
      simp only
      rw [if_neg (by rw [hfalse]; exact Bool.false_ne_true)]

/-- Tokens for the C8 witness: same payload, one with a broken
signature, one valid. -/
def tok_bad : Token := ⟨false, false, some "admin@example.com"⟩

def tok_good : Token := ⟨true, false, some "admin@example.com"⟩

/-- Witness for C8: on the concrete store, the badly-signed token is a
401 even though its subject exists, and the validly-authenticated admin
without the `ssg` role is a 403 on an ssg-only endpoint. -/
theorem c8_auth_failure_modes_witness :
    tok_bad.signature_valid = false ∧
    get_current_user db_c4 tok_bad = .error ⟨401, "Could not validate credentials"⟩ ∧
    get_current_user db_c4 tok_good = .ok user_admin ∧
    (["ssg"].any (fun r => user_admin.roles.contains r) = false) ∧
    get_user_with_required_roles db_c4 tok_good ["ssg"] =
      .error ⟨403, "Insufficient permissions. Required roles: ssg"⟩ := by
  refine ⟨rfl, ?_, rfl, by decide, ?_⟩
  · exact (c8_auth_failure_modes db_c4 tok_bad ["ssg"]).1 (Or.inl rfl)
  · exact ((c8_auth_failure_modes db_c4 tok_good ["ssg"]).2 user_admin rfl).2 (by decide)

end Valid8
